import Mathlib

/-!
Shallow embedding of the COVID-19 analysis pipeline in `src/bigquery/bq_c19.py`.

The script fetches the `bigquery-public-data.covid19_nyt.us_states` table,
asserts its shape (lines 41-42), runs a SQL query computing per-state daily
deltas by `LAG` and per-state z-scores of those deltas (lines 45-73), clips
negative deltas to zero (lines 107-108), aggregates monthly deaths for New
York (lines 115-118), flags z-score outliers (lines 165-176), and in a second
query computes per-(state, year, month) maxima of the cumulative case count
(lines 227-264), joins population data with a left merge (line 308), derives a
per-capita column (lines 309-311) and sorts by it (line 314).

Real-number convention: the z-score `z = (x - mu) / sigma` involves a square
root (`sigma = sqrt(variance)`), which is irrational in general.  To keep the
embedding executable over `Rat`, every z-score `z` is represented through the
strictly monotone bijection `t * |t|` (see `sqSigned` and the lemma
`sqSigned_strictMono`): we store `z * |z| = sqSigned (x - mu) / variance`.
All properties stated about z-scores (threshold comparisons against 3 and -3,
missingness, equality between two candidate definitions) are invariant under
this encoding; the threshold `t` becomes `sqSigned t` on the encoded side.
-/

/-- Calendar date as reported in the `us_states` table. -/
structure Date where
  year : ℕ
  month : ℕ
  day : ℕ
  deriving DecidableEq

/-- One row of the raw `us_states` table: per-state daily cumulative counts. -/
structure USRow where
  state_name : String
  date : Date
  confirmed_cases : ℤ
  deaths : ℤ
  deriving DecidableEq

/-- The fetched BigQuery table handle: row count and schema (lines 33-42). -/
structure BQTable where
  num_rows : ℕ
  schema : List String
  deriving DecidableEq

/-- Expected row count asserted at line 41. -/
def expected_rows : ℕ := 61942

/-- Expected column count asserted at line 42. -/
def expected_cols : ℕ := 5

/-- Column of `x - LAG(x) OVER (PARTITION BY state_name ORDER BY date)`
(lines 52-53), applied to one state partition in date order: the first row has
no predecessor, so its delta is NULL; every later row holds the difference
with the previous row. -/
def lagDeltas (xs : List ℤ) : List (Option ℤ) :=
  match xs with
  | [] => []
  | _ :: _ => none :: (xs.zip xs.tail).map fun p => some (p.2 - p.1)

/-- Signed square `t * |t|`: the strictly monotone bijection of the reals used
to represent z-scores without square roots. -/
def sqSigned (t : ℚ) : ℚ := t * |t|

/-- Defined (non-NULL) entries of a delta column, as rationals.  SQL aggregate
functions such as `AVG` and `STDDEV` ignore NULL inputs. -/
def definedVals (ds : List (Option ℤ)) : List ℚ :=
  ds.filterMap fun d => d.map fun x => (x : ℚ)

/-- Value of `AVG(...) OVER (PARTITION BY state_name)` on the defined entries
(lines 63 and 67). -/
def avgQ (l : List ℚ) : ℚ := l.sum / (l.length : ℚ)

/-- Square of BigQuery `STDDEV` (lines 64 and 68).  `STDDEV` is an alias of
`STDDEV_SAMP`, the sample standard deviation with divisor `n - 1`; it returns
NULL when there are fewer than two non-NULL inputs. -/
def varSamp (l : List ℚ) : Option ℚ :=
  if l.length < 2 then none
  else some ((l.map fun x => (x - avgQ l) ^ 2).sum / ((l.length : ℚ) - 1))

/-- Encoded z-score of one delta against its state's full delta column
(lines 62-69): for `z = (x - mu) / sqrt(v)` we store
`z * |z| = sqSigned (x - mu) / v`.  The result is NULL when the delta is NULL,
when `STDDEV` is NULL (fewer than two defined deltas), or when `STDDEV` is
zero (the `NULLIF(..., 0)` guard). -/
def zscoreEnc (col : List (Option ℤ)) (d : Option ℤ) : Option ℚ :=
  match d, varSamp (definedVals col) with
  | some x, some v =>
      if v = 0 then none
      else some (sqSigned ((x : ℚ) - avgQ (definedVals col)) / v)
  | _, _ => none

/-- Follows the spec's words (claim C3), for comparison with `zscoreEnc`:
variance with the population divisor `n` instead of the sample divisor
`n - 1`. -/
def varPopSpec (l : List ℚ) : Option ℚ :=
  if l.length = 0 then none
  else some ((l.map fun x => (x - avgQ l) ^ 2).sum / (l.length : ℚ))

/-- Follows the spec's words (claim C3), for comparison with `zscoreEnc`:
z-score from the population standard deviation, missing (not zero, not an
error) when that standard deviation is zero, encoded through `sqSigned`
exactly as `zscoreEnc` is. -/
def zscoreEncSpec (col : List (Option ℤ)) (d : Option ℤ) : Option ℚ :=
  match d, varPopSpec (definedVals col) with
  | some x, some v =>
      if v = 0 then none
      else some (sqSigned ((x : ℚ) - avgQ (definedVals col)) / v)
  | _, _ => none

/-- One row of the first query's result (lines 57-72). -/
structure QueryRow where
  date : Date
  state_name : String
  confirmed_cases_day : Option ℤ
  deaths_day : Option ℤ
  confirmed_cases_day_zscore : Option ℚ
  deaths_day_zscore : Option ℚ
  deriving DecidableEq

/-- The first SQL query (lines 45-73) applied to one partition: the rows of a
single state in date order.  Both window functions partition by `state_name`,
so the whole query is this computation run independently per state.  Deltas
come from `lagDeltas`; each z-score is computed from the state's raw
(unclipped, possibly negative) delta column. -/
def queryState (recs : List USRow) : List QueryRow :=
  let ccd := lagDeltas (recs.map fun r => r.confirmed_cases)
  let dtd := lagDeltas (recs.map fun r => r.deaths)
  (recs.zip (ccd.zip dtd)).map fun p =>
    { date := p.1.date
      state_name := p.1.state_name
      confirmed_cases_day := p.2.1
      deaths_day := p.2.2
      confirmed_cases_day_zscore := zscoreEnc ccd p.2.1
      deaths_day_zscore := zscoreEnc dtd p.2.2 }

/-- Pandas `clip(lower=0)` on one nullable entry: negative values become 0,
NULL stays NULL (lines 107-108). -/
def clipO (x : Option ℤ) : Option ℤ := x.map fun v => max v 0

/-- Pandas `clip(lower=0)` applied to a whole delta series. -/
def clipSeries (xs : List (Option ℤ)) : List (Option ℤ) := xs.map clipO

/-- Cleaning stage (lines 107-108): clip the two delta columns to be
non-negative; the z-score columns are not touched. -/
def clean (rows : List QueryRow) : List QueryRow :=
  rows.map fun r =>
    { r with
      confirmed_cases_day := clipO r.confirmed_cases_day
      deaths_day := clipO r.deaths_day }

/-- Line 165. -/
def upper_bound : ℚ := 3

/-- Line 166. -/
def lower_bound : ℚ := -3

/-- Pandas comparison `z > t` on a nullable z-score column, in the `sqSigned`
encoding: a missing value compares as not-greater (pandas NaN comparisons are
False). -/
def encGT (z : Option ℚ) (t : ℚ) : Bool :=
  match z with
  | none => false
  | some e => decide (sqSigned t < e)

/-- Pandas comparison `z < t` on a nullable z-score column, in the `sqSigned`
encoding: a missing value compares as not-less. -/
def encLT (z : Option ℚ) (t : ℚ) : Bool :=
  match z with
  | none => false
  | some e => decide (e < sqSigned t)

/-- Case-outlier rows (lines 169-172): rows whose confirmed-cases z-score
exceeds `upper_bound` or is below `lower_bound`. -/
def outliers (rows : List QueryRow) : List QueryRow :=
  rows.filter fun r =>
    encGT r.confirmed_cases_day_zscore upper_bound ||
      encLT r.confirmed_cases_day_zscore lower_bound

/-- Death-outlier rows (lines 173-176): same thresholds, applied to the deaths
z-score only. -/
def outliers_deaths (rows : List QueryRow) : List QueryRow :=
  rows.filter fun r =>
    encGT r.deaths_day_zscore upper_bound ||
      encLT r.deaths_day_zscore lower_bound

/-- Grouping key of `dt.to_period("M")` (line 115). -/
def monthKey (r : QueryRow) : ℕ × ℕ := (r.date.year, r.date.month)

/-- Monthly aggregation (lines 116-118): group rows by calendar month and sum
`deaths_day` within each group; pandas `sum` skips missing values, so a NULL
delta contributes 0.  Months are listed in first-occurrence order (pandas
sorts group keys; no claim depends on the order of the groups). -/
def monthly_deaths (rows : List QueryRow) : List ((ℕ × ℕ) × ℤ) :=
  ((rows.map monthKey).dedup).map fun m =>
    (m, ((rows.filter fun r => decide (monthKey r = m)).map
          fun r => (r.deaths_day).getD 0).sum)

/-- One row of the second query's result (lines 227-238). -/
structure D2Row where
  state_name : String
  date : Date
  year : ℕ
  month : ℕ
  highest_monthly_confirmed_cases : ℤ
  deriving DecidableEq

/-- Maximum of a list of integers, used for the SQL window `MAX` and pandas
groupwise `max`; the `[]` case never arises because every group contains the
row that generated its key. -/
def maxIntList : List ℤ → ℤ
  | [] => 0
  | x :: xs => xs.foldl max x

/-- The second SQL query (lines 227-238): one output row per input row,
carrying `MAX(confirmed_cases) OVER (PARTITION BY state_name, year, month)`. -/
def query2 (tbl : List USRow) : List D2Row :=
  tbl.map fun r =>
    { state_name := r.state_name
      date := r.date
      year := r.date.year
      month := r.date.month
      highest_monthly_confirmed_cases :=
        maxIntList
          ((tbl.filter fun q =>
              decide (q.state_name = r.state_name ∧ q.date.year = r.date.year ∧
                q.date.month = r.date.month)).map fun q => q.confirmed_cases) }

/-- Group key of line 255. -/
def g2key (r : D2Row) : String × ℕ × ℕ := (r.state_name, r.year, r.month)

/-- One row of `data2` after `groupby(["state_name", "year", "month"]).max()`
(line 255): one row per key with the groupwise maximum of the window column
(constant within the group, so the maximum is that constant).  The grouped
`date` column is also produced by pandas but never read afterwards, so it is
omitted here.  Keys are listed in first-occurrence order (pandas sorts them;
no claim depends on the order, which is overwritten by the sort of line 258). -/
structure G2Row where
  state_name : String
  year : ℕ
  month : ℕ
  highest_monthly_confirmed_cases : ℤ
  deriving DecidableEq

/-- Line 255: reduce `query2` output to one row per (state, year, month). -/
def groupStateMonth (rows : List D2Row) : List G2Row :=
  ((rows.map g2key).dedup).map fun k =>
    { state_name := k.1
      year := k.2.1
      month := k.2.2
      highest_monthly_confirmed_cases :=
        maxIntList ((rows.filter fun r => decide (g2key r = k)).map
          fun r => r.highest_monthly_confirmed_cases) }

/-- Sort order of line 258: descending by `highest_monthly_confirmed_cases`. -/
def peakRel (a b : G2Row) : Prop :=
  b.highest_monthly_confirmed_cases ≤ a.highest_monthly_confirmed_cases

instance : DecidableRel peakRel := fun a b => by
  unfold peakRel; infer_instance

/-- Lines 260-264: the dict mapping each state (in first-occurrence order of
the sorted frame) to the maximum of `highest_monthly_confirmed_cases` over all
of that state's monthly rows - the state's all-time peak. -/
def states_and_highest_month (d2 : List G2Row) : List (String × ℤ) :=
  ((d2.map fun r => r.state_name).dedup).map fun s =>
    (s, maxIntList ((d2.filter fun r => decide (r.state_name = s)).map
      fun r => r.highest_monthly_confirmed_cases))

/-- One row of the population reference table (lines 298-305). -/
structure PopRecord where
  state_name : String
  population : ℤ
  deriving DecidableEq

/-- Pandas `merge(..., how="left", on="state_name")` (line 308): every left
row is kept; a left row with matching population rows yields one output row
per match, and a left row with no match yields one output row with a missing
population. -/
def mergeLeft (left : List G2Row) (pop : List PopRecord) :
    List (G2Row × Option ℤ) :=
  left.flatMap fun l =>
    match pop.filter fun p => decide (p.state_name = l.state_name) with
    | [] => [(l, none)]
    | m => m.map fun p => (l, some p.population)

/-- One row of `data2` after the merge and the per-capita column. -/
structure MergedRow where
  state_name : String
  year : ℕ
  month : ℕ
  highest_monthly_confirmed_cases : ℤ
  population : Option ℤ
  highest_monthly_confirmed_cases_per_capita : Option ℚ
  deriving DecidableEq

/-- Lines 309-311: `highest_monthly_confirmed_cases / population`, missing
when the population is missing (pandas: division by NaN yields NaN). -/
def withPerCapita (rows : List (G2Row × Option ℤ)) : List MergedRow :=
  rows.map fun rp =>
    { state_name := rp.1.state_name
      year := rp.1.year
      month := rp.1.month
      highest_monthly_confirmed_cases := rp.1.highest_monthly_confirmed_cases
      population := rp.2
      highest_monthly_confirmed_cases_per_capita :=
        rp.2.map fun p =>
          (rp.1.highest_monthly_confirmed_cases : ℚ) / (p : ℚ) }

/-- Descending order on a nullable column with missing values last (pandas
`sort_values(..., ascending=False)` keeps NaN at the end). -/
def pcKeyLE (x y : Option ℚ) : Bool :=
  match x, y with
  | some a, some b => decide (b ≤ a)
  | some _, none => true
  | none, none => true
  | none, some _ => false

/-- Sort order of line 314: descending by the per-capita column. -/
def pcLE (a b : MergedRow) : Bool :=
  pcKeyLE a.highest_monthly_confirmed_cases_per_capita
    b.highest_monthly_confirmed_cases_per_capita

/-- Propositional form of `pcLE`, the relation the final sort uses. -/
def pcRel (a b : MergedRow) : Prop := pcLE a b = true

instance : DecidableRel pcRel := fun a b => by
  unfold pcRel; infer_instance

/-- The whole cross-sectional track (lines 227-314): second query, group to
one row per (state, year, month), sort by peak descending, left-merge the
population table, add the per-capita column, sort by it descending. -/
def data2_pipeline (tbl : List USRow) (pop : List PopRecord) :
    List MergedRow :=
  List.insertionSort pcRel
    (withPerCapita
      (mergeLeft (List.insertionSort peakRel (groupStateMonth (query2 tbl)))
        pop))

/-- Everything the pipeline derives after the assertions of lines 41-42. -/
structure PipelineOutput where
  cleaned : List QueryRow
  monthly : List ((ℕ × ℕ) × ℤ)
  outlier_cases : List QueryRow
  outlier_deaths : List QueryRow
  per_capita_rows : List MergedRow
  deriving DecidableEq

/-- The program after fetching the table: the assertions at lines 41-42 gate
every transformation stage; if either fails the process dies and nothing else
runs, otherwise the two analysis tracks run.  `ny_recs` is the New York
partition of the table in date order and `tbl` the full table used by the
second query. -/
def runPipeline (t : BQTable) (ny_recs : List USRow) (tbl : List USRow)
    (pop : List PopRecord) : Option PipelineOutput :=
  if t.num_rows = expected_rows ∧ t.schema.length = expected_cols then
    let rows := clean (queryState ny_recs)
    some
      { cleaned := rows
        monthly := monthly_deaths rows
        outlier_cases := outliers rows
        outlier_deaths := outliers_deaths rows
        per_capita_rows := data2_pipeline tbl pop }
  else none

/-! ## Concrete inputs used by witnesses and counterexamples -/

/-- Tiny table: one state with two months and different monthly peaks. -/
def tbl0 : List USRow :=
  [{ state_name := "A", date := ⟨2020, 1, 1⟩, confirmed_cases := 10,
     deaths := 0 },
   { state_name := "A", date := ⟨2020, 2, 1⟩, confirmed_cases := 20,
     deaths := 0 }]

/-- Population table matching state "A". -/
def pop0 : List PopRecord := [{ state_name := "A", population := 100 }]

/-- Delta column with defined entries 0 and 2. -/
def col0 : List (Option ℤ) := [none, some 0, some 2]

/-- One query row with concrete field values. -/
def q0 : QueryRow :=
  { date := ⟨2020, 3, 1⟩, state_name := "New York",
    confirmed_cases_day := some (-2), deaths_day := some (-7),
    confirmed_cases_day_zscore := some 1, deaths_day_zscore := some 1 }

/-- One query row whose z-scores are both missing. -/
def r0 : QueryRow :=
  { date := ⟨2020, 1, 21⟩, state_name := "New York",
    confirmed_cases_day := none, deaths_day := none,
    confirmed_cases_day_zscore := none, deaths_day_zscore := none }

/-- One grouped peak row whose state has no population match. -/
def g0 : G2Row :=
  { state_name := "Guam", year := 2021, month := 1,
    highest_monthly_confirmed_cases := 7 }

/-- Population table that does not mention the state of `g0`. -/
def popT : List PopRecord :=
  [{ state_name := "Texas", population := 29000000 }]

/-- Schema with the expected five columns. -/
def schema0 : List String := ["c1", "c2", "c3", "c4", "c5"]

/-- Table handle matching both asserted constants. -/
def tableGood : BQTable := { num_rows := 61942, schema := schema0 }

/-- Table handle with a wrong row count. -/
def tableBad : BQTable := { num_rows := 0, schema := schema0 }

/-! ## Helper lemmas -/

/-- The encoding used for z-scores is strictly monotone, hence injective:
statements about encoded z-scores transfer to the underlying real z-scores. -/
theorem sqSigned_strictMono : StrictMono sqSigned := by
  intro a b h
  simp only [sqSigned]
  rcases abs_cases a with ⟨ha, _⟩ | ⟨ha, _⟩ <;>
    rcases abs_cases b with ⟨hb, _⟩ | ⟨hb, _⟩ <;> rw [ha, hb] <;> nlinarith

theorem lagDeltas_length (xs : List ℤ) : (lagDeltas xs).length = xs.length := by
  cases xs with
  | nil => rfl
  | cons x rest =>
      simp [lagDeltas, List.length_zip, List.length_tail]

theorem lagDeltas_getElem (xs : List ℤ) (i : ℕ) (a b : ℤ)
    (h1 : xs[i]? = some a) (h2 : xs[i + 1]? = some b) :
    (lagDeltas xs)[i + 1]? = some (some (b - a)) := by
  cases xs with
  | nil => simp at h1
  | cons x rest =>
      simp only [lagDeltas, List.getElem?_cons_succ, List.getElem?_map]
      have hz : ((x :: rest).zip ((x :: rest).tail))[i]? = some (a, b) := by
        rw [List.getElem?_zip_eq_some]
        exact ⟨h1, by simpa [List.getElem?_tail] using h2⟩
      rw [hz]
      rfl

theorem lagDeltas_count_defined (xs : List ℤ) :
    (lagDeltas xs).countP (fun d => d.isSome) = xs.length - 1 := by
  cases xs with
  | nil => rfl
  | cons x rest =>
      simp only [lagDeltas, List.tail_cons, List.countP_cons, List.countP_map]
      have h1 : List.countP
          ((fun d : Option ℤ => d.isSome) ∘ fun p : ℤ × ℤ => some (p.2 - p.1))
          ((x :: rest).zip rest) = ((x :: rest).zip rest).length := by
        rw [List.countP_eq_length]
        intro a _
        simp [Function.comp]
      rw [h1]
      simp [List.length_zip]

/-- Summing a groupwise aggregate over a duplicate-free covering family of
keys gives back the total sum. -/
theorem sum_over_key_classes {α β : Type} [DecidableEq β] (key : α → β)
    (f : α → ℤ) :
    ∀ (keys : List β) (l : List α), keys.Nodup → (∀ a ∈ l, key a ∈ keys) →
      (keys.map fun b =>
        ((l.filter fun a => decide (key a = b)).map f).sum).sum =
        (l.map f).sum := by
  intro keys
  induction keys with
  | nil =>
      intro l _ hcov
      have : l = [] := by
        rw [List.eq_nil_iff_forall_not_mem]
        intro a ha
        exact absurd (hcov a ha) (List.not_mem_nil _)
      simp [this]
  | cons b ks ih =>
      intro l hnd hcov
      have hbk : b ∉ ks := (List.nodup_cons.mp hnd).1
      have hndk : ks.Nodup := (List.nodup_cons.mp hnd).2
      set l2 := l.filter fun a => !decide (key a = b) with hl2
      have hperm :
          ((l.filter fun a => decide (key a = b)) ++ l2).Perm l :=
        List.filter_append_perm _ l
      have hcov2 : ∀ a ∈ l2, key a ∈ ks := by
        intro a ha
        have hmem := List.mem_filter.mp ha
        have : key a ∈ b :: ks := hcov a hmem.1
        have hne : key a ≠ b := by simpa using hmem.2
        rcases List.mem_cons.mp this with h | h
        · exact absurd h hne
        · exact h
      have hsame : ∀ c ∈ ks,
          (l.filter fun a => decide (key a = c)) =
            (l2.filter fun a => decide (key a = c)) := by
        intro c hc
        have hcb : c ≠ b := fun h => hbk (h ▸ hc)
        rw [hl2, List.filter_filter]
        refine List.filter_congr ?_
        intro a _
        by_cases h : key a = c
        · simp [h, hcb]
        · simp [h]
      have hmaps :
          (ks.map fun c =>
            ((l.filter fun a => decide (key a = c)).map f).sum) =
          (ks.map fun c =>
            ((l2.filter fun a => decide (key a = c)).map f).sum) := by
        refine List.map_congr_left ?_
        intro c hc
        rw [hsame c hc]
      calc ((b :: ks).map fun c =>
              ((l.filter fun a => decide (key a = c)).map f).sum).sum
          = ((l.filter fun a => decide (key a = b)).map f).sum +
              (ks.map fun c =>
                ((l.filter fun a => decide (key a = c)).map f).sum).sum := by
            simp
        _ = ((l.filter fun a => decide (key a = b)).map f).sum +
              (l2.map f).sum := by
            rw [hmaps, ih l2 hndk hcov2]
        _ = (l.map f).sum := by
            rw [← List.sum_append, ← List.map_append]
            exact List.Perm.sum_eq (List.Perm.map f hperm)

/-! ## Claim C4: lag differencing -/

/-- C4: for a state's cumulative series in date order, the delta column has
one entry per daily record, the first entry is an explicit NULL, every later
entry at position i+1 equals the cumulative value at i+1 minus the one at i
(negative results allowed), and exactly length - 1 entries are defined. -/
theorem C4_lag_delta (xs : List ℤ) (h : xs ≠ []) :
    (lagDeltas xs).length = xs.length ∧
    (lagDeltas xs).head? = some none ∧
    (∀ (i : ℕ) (a b : ℤ), xs[i]? = some a → xs[i + 1]? = some b →
      (lagDeltas xs)[i + 1]? = some (some (b - a))) ∧
    (lagDeltas xs).countP (fun d => d.isSome) = xs.length - 1 := by
  refine ⟨lagDeltas_length xs, ?_, lagDeltas_getElem xs,
    lagDeltas_count_defined xs⟩
  cases xs with
  | nil => exact absurd rfl h
  | cons x rest => rfl

/-- Witness for C4 at the spec's example series [100, 105, 103, 110]. -/
theorem C4_lag_delta_witness :
    ([100, 105, 103, 110] : List ℤ) ≠ [] ∧
    (lagDeltas [100, 105, 103, 110]).head? = some none ∧
    (lagDeltas [100, 105, 103, 110]).countP (fun d => d.isSome) = 3 :=
  ⟨by decide, (C4_lag_delta [100, 105, 103, 110] (by decide)).2.1,
    (C4_lag_delta [100, 105, 103, 110] (by decide)).2.2.2⟩

/-! ## Claim C7: cleaning is idempotent -/

/-- C7: clipping negative deltas to zero is idempotent, both on a single delta
series and on the whole cleaning stage. -/
theorem C7_clip_idempotent (xs : List (Option ℤ)) (rows : List QueryRow) :
    clipSeries (clipSeries xs) = clipSeries xs ∧
    clean (clean rows) = clean rows := by
  have hclip : ∀ x : Option ℤ, clipO (clipO x) = clipO x := by
    intro x
    cases x with
    | none => rfl
    | some v =>
        simp only [clipO, Option.map]
        rw [max_assoc, max_self]
  constructor
  · simp only [clipSeries, List.map_map]
    refine List.map_congr_left ?_
    intro x _
    exact hclip x
  · simp only [clean, List.map_map]
    refine List.map_congr_left ?_
    intro r _
    simp [Function.comp, hclip]

/-- A NULL delta has a NULL z-score, whatever the column statistics are. -/
theorem zscoreEnc_none (col : List (Option ℤ)) : zscoreEnc col none = none := by
  unfold zscoreEnc
  cases varSamp (definedVals col) <;> rfl

/-! ## Claim C2: z-scores are computed before clipping -/

/-- C2: the z-score columns produced by the query are a function of the raw
signed delta columns; the cleaning stage rewrites only the two delta columns
(to their clipped values, which are non-negative) and leaves both z-score
columns of every row exactly as they were. -/
theorem C2_zscore_unaffected_by_clip (recs : List USRow)
    (rows : List QueryRow) :
    ((clean rows).map (fun r => r.confirmed_cases_day_zscore) =
      rows.map fun r => r.confirmed_cases_day_zscore) ∧
    ((clean rows).map (fun r => r.deaths_day_zscore) =
      rows.map fun r => r.deaths_day_zscore) ∧
    ((clean rows).map (fun r => r.confirmed_cases_day) =
      rows.map fun r => clipO r.confirmed_cases_day) ∧
    ((clean rows).map (fun r => r.deaths_day) =
      rows.map fun r => clipO r.deaths_day) ∧
    (∀ q ∈ queryState recs,
      q.confirmed_cases_day_zscore =
        zscoreEnc (lagDeltas (recs.map fun u => u.confirmed_cases))
          q.confirmed_cases_day ∧
      q.deaths_day_zscore =
        zscoreEnc (lagDeltas (recs.map fun u => u.deaths)) q.deaths_day) ∧
    (∀ r ∈ clean rows, ∀ v : ℤ, r.deaths_day = some v → 0 ≤ v) := by
  refine ⟨?_, ?_, ?_, ?_, ?_, ?_⟩
  · simp [clean, List.map_map, Function.comp]
  · simp [clean, List.map_map, Function.comp]
  · simp [clean, List.map_map, Function.comp]
  · simp [clean, List.map_map, Function.comp]
  · intro q hq
    unfold queryState at hq
    rcases List.mem_map.mp hq with ⟨p, _, hp⟩
    subst hp
    exact ⟨rfl, rfl⟩
  · intro r hr v hv
    unfold clean at hr
    rcases List.mem_map.mp hr with ⟨r2, _, hr2⟩
    subst hr2
    simp only [clipO] at hv
    cases hdd : r2.deaths_day with
    | none => rw [hdd] at hv; simp at hv
    | some w =>
        rw [hdd] at hv
        simp only [Option.map] at hv
        have : max w 0 = v := Option.some.inj hv
        omega

/-- Witness for C2: the cleaning stage leaves the deaths z-score column of a
concrete one-row frame unchanged. -/
theorem C2_zscore_unaffected_by_clip_witness :
    ((clean [q0]).map fun r => r.deaths_day_zscore) =
      ([q0].map fun r => r.deaths_day_zscore) :=
  (C2_zscore_unaffected_by_clip [] [q0]).2.1

/-! ## Claim C3: z-score formula -/

/-- C3 (amended): the z-score is missing exactly when the delta is NULL, when
the state has fewer than two defined deltas (BigQuery STDDEV returns NULL), or
when the standard deviation is zero (the NULLIF guard); otherwise it is
`(value - mean) / stddev` with the SAMPLE standard deviation (divisor n - 1),
both statistics taken over the state's entire history of defined deltas.
Encoded through `sqSigned`: the z-score value is represented by
`sqSigned (value - mean) / variance`. -/
theorem C3_zscore_sample_stddev (col : List (Option ℤ)) (d : Option ℤ) :
    (zscoreEnc col d = none ↔
      d = none ∨ varSamp (definedVals col) = none ∨
        varSamp (definedVals col) = some 0) ∧
    (varSamp (definedVals col) = none ↔ (definedVals col).length < 2) ∧
    (∀ (x : ℤ) (v : ℚ), d = some x → varSamp (definedVals col) = some v →
      v ≠ 0 →
      zscoreEnc col d =
        some (sqSigned ((x : ℚ) - avgQ (definedVals col)) / v)) ∧
    avgQ (definedVals col) =
      (definedVals col).sum / ((definedVals col).length : ℚ) := by
  refine ⟨?_, ?_, ?_, rfl⟩
  · cases d with
    | none =>
        cases hv : varSamp (definedVals col) <;> simp [zscoreEnc, hv]
    | some x =>
        cases hv : varSamp (definedVals col) with
        | none => simp [zscoreEnc, hv]
        | some v =>
            by_cases h0 : v = 0
            · subst h0
              simp [zscoreEnc, hv]
            · simp [zscoreEnc, hv, h0]
  · unfold varSamp
    split_ifs with h
    · simp [h]
    · simp [h]
  · intro x v hd hv h0
    subst hd
    simp [zscoreEnc, hv, h0]

/-- Witness for C3: a NULL delta yields a missing z-score. -/
theorem C3_zscore_sample_stddev_witness : zscoreEnc [] none = none :=
  (C3_zscore_sample_stddev [] none).1.mpr (Or.inl rfl)

/-- Counterexample refuting C3 as stated: on the delta column `col0` (defined
deltas 0 and 2), the code's z-score (BigQuery STDDEV = sample standard
deviation, divisor n - 1) differs from the spec's population-standard-
deviation z-score at the delta 2: encoded values 1/2 versus 1.  Because the
`sqSigned` encoding is strictly monotone (`sqSigned_strictMono`), the
underlying real z-scores differ as well: 1/sqrt 2 versus 1. -/
theorem C3_population_stddev_counterexample :
    zscoreEnc col0 (some 2) = some ((1 : ℚ)/2) ∧
    zscoreEncSpec col0 (some 2) = some 1 ∧
    zscoreEnc col0 (some 2) ≠ zscoreEncSpec col0 (some 2) := by
  have h1 : definedVals col0 = [0, 2] := by
    simp [definedVals, col0]
  have h2 : avgQ [(0 : ℚ), 2] = 1 := by
    norm_num [avgQ]
  have h3 : varSamp [(0 : ℚ), 2] = some 2 := by
    norm_num [varSamp, h2]
  have h4 : varPopSpec [(0 : ℚ), 2] = some 1 := by
    norm_num [varPopSpec, h2]
  have h5 : zscoreEnc col0 (some 2) = some ((1 : ℚ)/2) := by
    simp only [zscoreEnc, h1, h3]
    norm_num [h2, sqSigned]
  have h6 : zscoreEncSpec col0 (some 2) = some 1 := by
    simp only [zscoreEncSpec, h1, h4]
    norm_num [h2, sqSigned]
  refine ⟨h5, h6, ?_⟩
  rw [h5, h6]
  norm_num

/-! ## Claim C5: the two outlier sets -/

/-- C5: a row is in the case-outlier set exactly when it is an input row whose
confirmed-cases z-score exceeds the upper bound or is below the lower bound
(encoded comparisons; `sqSigned upper_bound = 9`), and in the death-outlier
set exactly when its deaths z-score does; each flag reads only its own z-score
column, so the two sets are independent, and membership is of the whole row,
so every flagged row keeps all its fields. -/
theorem C5_outlier_sets (rows : List QueryRow) (r : QueryRow) :
    (r ∈ outliers rows ↔
      r ∈ rows ∧ (encGT r.confirmed_cases_day_zscore upper_bound = true ∨
        encLT r.confirmed_cases_day_zscore lower_bound = true)) ∧
    (r ∈ outliers_deaths rows ↔
      r ∈ rows ∧ (encGT r.deaths_day_zscore upper_bound = true ∨
        encLT r.deaths_day_zscore lower_bound = true)) := by
  constructor
  · rw [outliers, List.mem_filter, Bool.or_eq_true]
  · rw [outliers_deaths, List.mem_filter, Bool.or_eq_true]

/-! ## Claim C9: missing z-scores are never flagged -/

/-- C9: a row whose confirmed-cases z-score is missing is never in the
case-outlier set, a row whose deaths z-score is missing is never in the
death-outlier set, and the first row of any state's series (the only one whose
delta has no predecessor) indeed carries missing z-scores. -/
theorem C9_missing_zscore_not_flagged (rows : List QueryRow) (r : QueryRow) :
    (r.confirmed_cases_day_zscore = none → r ∉ outliers rows) ∧
    (r.deaths_day_zscore = none → r ∉ outliers_deaths rows) ∧
    (∀ recs : List USRow, ∀ q ∈ (queryState recs).head?,
      q.confirmed_cases_day_zscore = none ∧ q.deaths_day_zscore = none) := by
  refine ⟨?_, ?_, ?_⟩
  · intro h hmem
    have := (List.mem_filter.mp hmem).2
    rw [h] at this
    simp [encGT, encLT] at this
  · intro h hmem
    have := (List.mem_filter.mp hmem).2
    rw [h] at this
    simp [encGT, encLT] at this
  · intro recs q hq
    cases recs with
    | nil => simp [queryState] at hq
    | cons u us =>
        rw [Option.mem_def] at hq
        have hb :
            some
              { date := u.date, state_name := u.state_name,
                confirmed_cases_day := none, deaths_day := none,
                confirmed_cases_day_zscore :=
                  zscoreEnc
                    (lagDeltas ((u :: us).map fun r => r.confirmed_cases))
                    none,
                deaths_day_zscore :=
                  zscoreEnc (lagDeltas ((u :: us).map fun r => r.deaths))
                    none } = some q :=
          Eq.trans (by rfl) hq
        have hq3 := Option.some.inj hb
        subst hq3
        constructor
        · show zscoreEnc
            (lagDeltas ((u :: us).map fun r => r.confirmed_cases)) none = none
          exact zscoreEnc_none _
        · show zscoreEnc
            (lagDeltas ((u :: us).map fun r => r.deaths)) none = none
          exact zscoreEnc_none _

/-- Witness for C9: the all-missing row `r0` is not flagged. -/
theorem C9_missing_zscore_not_flagged_witness : r0 ∉ outliers [r0] :=
  (C9_missing_zscore_not_flagged [r0] r0).1 rfl

/-! ## Claim C6: monthly aggregation sums -/

/-- C6: in the monthly aggregation of a state's cleaned rows, each monthly
total is the sum of that month's cleaned daily death deltas with missing
values contributing 0, and the monthly totals sum to the grand total of all
cleaned daily death deltas. -/
theorem C6_monthly_sum (recs : List USRow) :
    (∀ m ∈ monthly_deaths (clean (queryState recs)),
      m.2 = (((clean (queryState recs)).filter
        fun r => decide (monthKey r = m.1)).map
          fun r => (r.deaths_day).getD 0).sum) ∧
    ((monthly_deaths (clean (queryState recs))).map fun p => p.2).sum =
      ((clean (queryState recs)).map fun r => (r.deaths_day).getD 0).sum := by
  constructor
  · intro m hm
    rcases List.mem_map.mp hm with ⟨k, _, hk⟩
    subst hk
    rfl
  · unfold monthly_deaths
    rw [List.map_map]
    exact sum_over_key_classes monthKey (fun r => (r.deaths_day).getD 0) _ _
      (List.nodup_dedup _)
      (fun a ha => List.mem_dedup.mpr (List.mem_map_of_mem monthKey ha))

/-- Witness for C6 on the empty partition. -/
theorem C6_monthly_sum_witness :
    ((monthly_deaths (clean (queryState []))).map fun p => p.2).sum =
      ((clean (queryState [])).map fun r => (r.deaths_day).getD 0).sum :=
  (C6_monthly_sum []).2

/-! ## Claim C8: the shape assertions gate the pipeline -/

/-- C8: if the fetched table's row count differs from 61942 or its column
count differs from 5, the run stops before any transformation stage (no
output is produced); if both match, the assertions pass and the pipeline
proceeds to produce its output. -/
theorem C8_assertions_gate (t : BQTable) (ny_recs tbl : List USRow)
    (pop : List PopRecord) :
    (t.num_rows ≠ expected_rows ∨ t.schema.length ≠ expected_cols →
      runPipeline t ny_recs tbl pop = none) ∧
    (t.num_rows = expected_rows ∧ t.schema.length = expected_cols →
      (runPipeline t ny_recs tbl pop).isSome = true) := by
  constructor
  · intro h
    unfold runPipeline
    rw [if_neg]
    intro hc
    rcases h with h | h
    · exact h hc.1
    · exact h hc.2
  · intro h
    unfold runPipeline
    rw [if_pos h]
    rfl

/-- Witness for C8: a table with the expected shape passes the gate and one
with a wrong row count produces nothing. -/
theorem C8_assertions_gate_witness :
    (runPipeline tableGood [] [] []).isSome = true ∧
    runPipeline tableBad [] [] [] = none :=
  ⟨(C8_assertions_gate tableGood [] [] []).2 ⟨rfl, rfl⟩,
    (C8_assertions_gate tableBad [] [] []).1 (Or.inl (by decide))⟩

/-! ## Claim C10: the population join is a left join -/

/-- C10: after the left merge and the per-capita column, every row of the
peak table is still represented in the output (its key and peak intact), and
a row whose state has no exact match in the population table comes through
with a missing population and a missing per-capita value instead of being
dropped. -/
theorem C10_left_join (left : List G2Row) (pop : List PopRecord) (l : G2Row)
    (hl : l ∈ left) :
    (∃ r ∈ withPerCapita (mergeLeft left pop),
      r.state_name = l.state_name ∧ r.year = l.year ∧ r.month = l.month ∧
        r.highest_monthly_confirmed_cases =
          l.highest_monthly_confirmed_cases) ∧
    ((∀ p ∈ pop, p.state_name ≠ l.state_name) →
      ∃ r ∈ withPerCapita (mergeLeft left pop),
        r.state_name = l.state_name ∧ r.year = l.year ∧ r.month = l.month ∧
          r.highest_monthly_confirmed_cases =
            l.highest_monthly_confirmed_cases ∧
          r.population = none ∧
          r.highest_monthly_confirmed_cases_per_capita = none) := by
  have hmk : ∀ x : G2Row × Option ℤ, x ∈ mergeLeft left pop →
      ∃ r ∈ withPerCapita (mergeLeft left pop),
        r.state_name = x.1.state_name ∧ r.year = x.1.year ∧
          r.month = x.1.month ∧
          r.highest_monthly_confirmed_cases =
            x.1.highest_monthly_confirmed_cases ∧
          r.population = x.2 ∧
          r.highest_monthly_confirmed_cases_per_capita =
            x.2.map fun p =>
              (x.1.highest_monthly_confirmed_cases : ℚ) / (p : ℚ) := by
    intro x hx
    exact ⟨_, List.mem_map_of_mem _ hx, rfl, rfl, rfl, rfl, rfl, rfl⟩
  constructor
  · cases hf : pop.filter fun p => decide (p.state_name = l.state_name) with
    | nil =>
        have hmem : (l, (none : Option ℤ)) ∈ mergeLeft left pop := by
          unfold mergeLeft
          refine List.mem_flatMap.mpr ⟨l, hl, ?_⟩
          rw [hf]
          exact List.mem_singleton.mpr rfl
        rcases hmk (l, none) hmem with ⟨r, hr, h1, h2, h3, h4, _, _⟩
        exact ⟨r, hr, h1, h2, h3, h4⟩
    | cons p ps =>
        have hmem : (l, some p.population) ∈ mergeLeft left pop := by
          unfold mergeLeft
          refine List.mem_flatMap.mpr ⟨l, hl, ?_⟩
          rw [hf]
          exact List.mem_map_of_mem _ (List.mem_cons_self p ps)
        rcases hmk (l, some p.population) hmem with ⟨r, hr, h1, h2, h3, h4, _, _⟩
        exact ⟨r, hr, h1, h2, h3, h4⟩
  · intro hnone
    have hf : (pop.filter fun p => decide (p.state_name = l.state_name)) = [] := by
      rw [List.filter_eq_nil_iff]
      intro p hp
      simpa using hnone p hp
    have hmem : (l, (none : Option ℤ)) ∈ mergeLeft left pop := by
      unfold mergeLeft
      refine List.mem_flatMap.mpr ⟨l, hl, ?_⟩
      rw [hf]
      exact List.mem_singleton.mpr rfl
    rcases hmk (l, none) hmem with ⟨r, hr, h1, h2, h3, h4, h5, h6⟩
    exact ⟨r, hr, h1, h2, h3, h4, h5, h6⟩

/-- Witness for C10: the row for "Guam" survives a merge against a population
table that only knows "Texas", with missing population and per-capita. -/
theorem C10_left_join_witness :
    ∃ r ∈ withPerCapita (mergeLeft [g0] popT),
      r.state_name = g0.state_name ∧ r.year = g0.year ∧ r.month = g0.month ∧
        r.highest_monthly_confirmed_cases =
          g0.highest_monthly_confirmed_cases ∧
        r.population = none ∧
        r.highest_monthly_confirmed_cases_per_capita = none :=
  (C10_left_join [g0] popT g0 (List.mem_singleton.mpr rfl)).2 (by decide)

/-! ## Claim C1: the per-capita table -/

theorem pcKeyLE_total (x y : Option ℚ) :
    pcKeyLE x y = true ∨ pcKeyLE y x = true := by
  rcases x with _ | a <;> rcases y with _ | b <;> simp only [pcKeyLE]
  · exact Or.inl trivial
  · exact Or.inr trivial
  · exact Or.inl trivial
  · rcases le_total b a with h | h
    · exact Or.inl (decide_eq_true h)
    · exact Or.inr (decide_eq_true h)

theorem pcKeyLE_trans {x y z : Option ℚ} (h1 : pcKeyLE x y = true)
    (h2 : pcKeyLE y z = true) : pcKeyLE x z = true := by
  rcases x with _ | a <;> rcases y with _ | b <;> rcases z with _ | c <;>
    simp only [pcKeyLE] at h1 h2 ⊢ <;>
      first
        | rfl
        | exact h1
        | exact h2
        | exact (Bool.false_ne_true h2).elim
        | exact decide_eq_true
            (le_trans (of_decide_eq_true h2) (of_decide_eq_true h1))

instance : IsTotal MergedRow pcRel :=
  ⟨fun a b => pcKeyLE_total _ _⟩

instance : IsTrans MergedRow pcRel :=
  ⟨fun _ _ _ h1 h2 => pcKeyLE_trans h1 h2⟩

/-- C1 (amended): in the final per-capita table there is one row per
(state, year, month) group - not one per state - and each row's per-capita
value is that month's within-month peak divided by the row's population
(missing when the population is missing); the rows are sorted descending by
this per-capita value with missing values last.  The single all-time per-state
peak is computed separately into the dict of lines 260-264 (used only for the
non-per-capita chart): there each state maps to the maximum of its monthly
peaks. -/
theorem C1_per_capita_amended (tbl : List USRow) (pop : List PopRecord) :
    (∀ r ∈ data2_pipeline tbl pop,
      r.highest_monthly_confirmed_cases_per_capita =
        r.population.map fun p =>
          (r.highest_monthly_confirmed_cases : ℚ) / (p : ℚ)) ∧
    List.Sorted pcRel (data2_pipeline tbl pop) ∧
    (∀ sm ∈ states_and_highest_month
        (List.insertionSort peakRel (groupStateMonth (query2 tbl))),
      sm.2 = maxIntList
        (((List.insertionSort peakRel (groupStateMonth (query2 tbl))).filter
          fun r => decide (r.state_name = sm.1)).map
            fun r => r.highest_monthly_confirmed_cases)) := by
  refine ⟨?_, ?_, ?_⟩
  · intro r hr
    rw [data2_pipeline, List.mem_insertionSort, withPerCapita] at hr
    rcases List.mem_map.mp hr with ⟨rp, _, hrp⟩
    subst hrp
    rfl
  · exact List.sorted_insertionSort pcRel _
  · intro sm hsm
    rw [states_and_highest_month] at hsm
    rcases List.mem_map.mp hsm with ⟨s, _, hs⟩
    subst hs
    rfl

/-- Witness for C1 (amended), instantiated at the concrete table `tbl0`. -/
theorem C1_per_capita_amended_witness :
    List.Sorted pcRel (data2_pipeline tbl0 pop0) :=
  (C1_per_capita_amended tbl0 pop0).2.1

/-- Counterexample refuting C1 as stated: on `tbl0` (state "A", month 2020-01
with peak 10 and month 2020-02 with peak 20) and `pop0` (population 100), the
dict of lines 260-264 holds the all-time peak 20, yet the final per-capita
table has TWO rows for state "A" - one per month - and the second row carries
per-capita 10/100 = 1/10, not the all-time-peak value 20/100 = 1/5.  The
per-capita values are therefore computed per (state, month) row, and the
sorted rows are per (state, month), not per state as the claim states. -/
theorem C1_per_capita_counterexample :
    ((data2_pipeline tbl0 pop0).map fun r =>
      (r.state_name, r.highest_monthly_confirmed_cases,
        r.highest_monthly_confirmed_cases_per_capita)) =
      [("A", 20, some ((1 : ℚ)/5)), ("A", 10, some ((1 : ℚ)/10))] ∧
    states_and_highest_month
      (List.insertionSort peakRel (groupStateMonth (query2 tbl0))) =
      [("A", 20)] ∧
    ((1 : ℚ)/10) ≠ (20 : ℚ)/100 := by
  have hsorted :
      List.insertionSort peakRel (groupStateMonth (query2 tbl0)) =
        [{ state_name := "A", year := 2020, month := 2,
           highest_monthly_confirmed_cases := 20 },
         { state_name := "A", year := 2020, month := 1,
           highest_monthly_confirmed_cases := 10 }] := by decide
  have hmerge :
      mergeLeft
          (List.insertionSort peakRel (groupStateMonth (query2 tbl0))) pop0 =
        [({ state_name := "A", year := 2020, month := 2,
            highest_monthly_confirmed_cases := 20 }, some 100),
         ({ state_name := "A", year := 2020, month := 1,
            highest_monthly_confirmed_cases := 10 }, some 100)] := by
    rw [hsorted]
    decide
  have hwpc :
      withPerCapita
          [({ state_name := "A", year := 2020, month := 2,
              highest_monthly_confirmed_cases := 20 }, some 100),
           ({ state_name := "A", year := 2020, month := 1,
              highest_monthly_confirmed_cases := 10 }, some 100)] =
        [{ state_name := "A", year := 2020, month := 2,
           highest_monthly_confirmed_cases := 20, population := some 100,
           highest_monthly_confirmed_cases_per_capita := some ((1 : ℚ)/5) },
         { state_name := "A", year := 2020, month := 1,
           highest_monthly_confirmed_cases := 10, population := some 100,
           highest_monthly_confirmed_cases_per_capita :=
             some ((1 : ℚ)/10) }] := by
    simp only [withPerCapita, List.map_cons, List.map_nil, Option.map]
    norm_num [MergedRow.mk.injEq]
  have hrel : pcRel
      { state_name := "A", year := 2020, month := 2,
        highest_monthly_confirmed_cases := 20, population := some 100,
        highest_monthly_confirmed_cases_per_capita := some ((1 : ℚ)/5) }
      { state_name := "A", year := 2020, month := 1,
        highest_monthly_confirmed_cases := 10, population := some 100,
        highest_monthly_confirmed_cases_per_capita := some ((1 : ℚ)/10) } := by
    show pcKeyLE (some ((1 : ℚ)/5)) (some ((1 : ℚ)/10)) = true
    simp only [pcKeyLE]
    rw [decide_eq_true_eq]
    norm_num
  have hsort2 :
      List.insertionSort pcRel
          [{ state_name := "A", year := 2020, month := 2,
             highest_monthly_confirmed_cases := 20, population := some 100,
             highest_monthly_confirmed_cases_per_capita := some ((1 : ℚ)/5) },
           { state_name := "A", year := 2020, month := 1,
             highest_monthly_confirmed_cases := 10, population := some 100,
             highest_monthly_confirmed_cases_per_capita :=
               some ((1 : ℚ)/10) }] =
        [{ state_name := "A", year := 2020, month := 2,
           highest_monthly_confirmed_cases := 20, population := some 100,
           highest_monthly_confirmed_cases_per_capita := some ((1 : ℚ)/5) },
         { state_name := "A", year := 2020, month := 1,
           highest_monthly_confirmed_cases := 10, population := some 100,
           highest_monthly_confirmed_cases_per_capita :=
             some ((1 : ℚ)/10) }] := by
    simp only [List.insertionSort, List.orderedInsert]
    rw [if_pos hrel]
  refine ⟨?_, ?_, by norm_num⟩
  · rw [data2_pipeline, hmerge, hwpc, hsort2]
    rfl
  · rw [hsorted]
    decide
